import Mathlib

/-!
Verification development for the invoice-extraction pipeline in `open.py`.
Python values produced by `json.loads` are embedded as `PyVal`; Python dicts
are association lists with first-match lookup and in-place overwrite, which
matches CPython's insertion-order semantics for JSON objects.
-/

namespace OpenPy

inductive PyVal where
  | null : PyVal
  | bool (b : Bool) : PyVal
  | int (n : Int) : PyVal
  | float (q : Rat) : PyVal
  | str (s : String) : PyVal
  | list (xs : List PyVal) : PyVal
  | dict (fields : List (String × PyVal)) : PyVal

def dictGet : List (String × PyVal) → String → Option PyVal
  | [], _ => none
  | (k0, v0) :: rest, k => if k0 = k then some v0 else dictGet rest k

def dictSet : List (String × PyVal) → String → PyVal → List (String × PyVal)
  | [], k, v => [(k, v)]
  | (k0, v0) :: rest, k, v =>
    if k0 = k then (k0, v) :: rest else (k0, v0) :: dictSet rest k v

def pyTruthy : PyVal → Bool
  | .null => false
  | .bool b => b
  | .int n => if n = 0 then false else true
  | .float q => if q = 0 then false else true
  | .str s => if s = "" then false else true
  | .list xs => if xs.isEmpty then false else true
  | .dict fs => if fs.isEmpty then false else true

def isDict : PyVal → Bool
  | .dict _ => true
  | _ => false

def lbrace : Char := Char.ofNat 123

def rbrace : Char := Char.ofNat 125

def skipWs : List Char → List Char
  | [] => []
  | c :: rest =>
    if c = ' ' ∨ c = '\t' ∨ c = '\n' ∨ c = '\r' then skipWs rest else c :: rest

def hexVal (c : Char) : Option Nat :=
  if '0' ≤ c ∧ c ≤ '9' then some (c.toNat - 48)
  else if 'a' ≤ c ∧ c ≤ 'f' then some (c.toNat - 87)
  else if 'A' ≤ c ∧ c ≤ 'F' then some (c.toNat - 55)
  else none

def escDecode (c : Char) : Option Char :=
  if c = '"' then some '"'
  else if c = '\\' then some '\\'
  else if c = '/' then some '/'
  else if c = 'b' then some (Char.ofNat 8)
  else if c = 'f' then some (Char.ofNat 12)
  else if c = 'n' then some '\n'
  else if c = 'r' then some '\r'
  else if c = 't' then some '\t'
  else none

def parseStringBody : List Char → Option (List Char × List Char)
  | [] => none
  | c :: rest =>
    if c = '"' then some ([], rest)
    else if c = '\\' then
      match rest with
      | [] => none
      | e :: rest2 =>
        if e = 'u' then
          match rest2 with
          | a :: b :: c2 :: d :: rest3 =>
            match hexVal a, hexVal b, hexVal c2, hexVal d with
            | some ha, some hb, some hc, some hd =>
              (parseStringBody rest3).map
                (fun p => (Char.ofNat (((ha * 16 + hb) * 16 + hc) * 16 + hd) :: p.1, p.2))
            | _, _, _, _ => none
          | _ => none
        else
          match escDecode e with
          | some ec => (parseStringBody rest2).map (fun p => (ec :: p.1, p.2))
          | none => none
    else if c.toNat < 32 then none
    else (parseStringBody rest).map (fun p => (c :: p.1, p.2))

def digitsToNat (ds : List Char) : Nat :=
  ds.foldl (fun a c => a * 10 + (c.toNat - 48)) 0

def expPart (r : List Char) : Option (Int × List Char) :=
  let sr : Int × List Char :=
    match r with
    | '+' :: t => (1, t)
    | '-' :: t => (-1, t)
    | _ => (1, r)
  let ed := List.span Char.isDigit sr.2
  if ed.1 = [] then none else some (sr.1 * (digitsToNat ed.1 : Int), ed.2)

def parseNumber (cs : List Char) : Option (PyVal × List Char) :=
  let sn : Bool × List Char :=
    match cs with
    | '-' :: r => (true, r)
    | _ => (false, cs)
  let ip := List.span Char.isDigit sn.2
  if ip.1 = [] then none
  else if ip.1.length > 1 ∧ ip.1.head? = some '0' then none
  else
    let fr : Option (List Char × List Char × Bool) :=
      match ip.2 with
      | '.' :: r =>
        let f := List.span Char.isDigit r
        if f.1 = [] then none else some (f.1, f.2, true)
      | _ => some ([], ip.2, false)
    match fr with
    | none => none
    | some (fds, cs3, hasFrac) =>
      let ex : Option (Option Int × List Char) :=
        match cs3 with
        | 'e' :: r => (expPart r).map (fun p => (some p.1, p.2))
        | 'E' :: r => (expPart r).map (fun p => (some p.1, p.2))
        | _ => some (none, cs3)
      match ex with
      | none => none
      | some (eop, cs4) =>
        let isFloat := hasFrac ∨ eop.isSome
        let mantissa : Nat := digitsToNat (ip.1 ++ fds)
        let e : Int := (match eop with | some ev => ev | none => 0) - (fds.length : Int)
        if isFloat then
          let sgn : Int := if sn.1 then -1 else 1
          let q : Rat :=
            if 0 ≤ e then mkRat (sgn * ((mantissa * 10 ^ e.toNat : Nat) : Int)) 1
            else mkRat (sgn * (mantissa : Int)) (10 ^ (-e).toNat)
          some (.float q, cs4)
        else
          some (.int (if sn.1 then -(mantissa : Int) else (mantissa : Int)), cs4)

mutual

def parseVal : Nat → List Char → Option (PyVal × List Char)
  | 0, _ => none
  | fuel + 1, cs =>
    match skipWs cs with
    | [] => none
    | c :: rest =>
      if c = '"' then (parseStringBody rest).map (fun p => (.str (String.mk p.1), p.2))
      else if c = lbrace then parseMembers fuel rest []
      else if c = '[' then parseItems fuel rest []
      else if c = 't' then
        match rest with
        | 'r' :: 'u' :: 'e' :: r => some (.bool true, r)
        | _ => none
      else if c = 'f' then
        match rest with
        | 'a' :: 'l' :: 's' :: 'e' :: r => some (.bool false, r)
        | _ => none
      else if c = 'n' then
        match rest with
        | 'u' :: 'l' :: 'l' :: r => some (.null, r)
        | _ => none
      else parseNumber (c :: rest)

def parseMembers : Nat → List Char → List (String × PyVal) → Option (PyVal × List Char)
  | 0, _, _ => none
  | fuel + 1, cs, acc =>
    match skipWs cs with
    | [] => none
    | c :: rest =>
      if c = rbrace then (if acc.isEmpty then some (.dict [], rest) else none)
      else if c = '"' then
        match parseStringBody rest with
        | none => none
        | some (k, r1) =>
          match skipWs r1 with
          | ':' :: r2 =>
            match parseVal fuel r2 with
            | none => none
            | some (v, r3) =>
              let acc2 := dictSet acc (String.mk k) v
              match skipWs r3 with
              | ',' :: r4 => parseMembers fuel r4 acc2
              | c2 :: r4 => if c2 = rbrace then some (.dict acc2, r4) else none
              | [] => none
          | _ => none
      else none

def parseItems : Nat → List Char → List PyVal → Option (PyVal × List Char)
  | 0, _, _ => none
  | fuel + 1, cs, acc =>
    match skipWs cs with
    | [] => none
    | c :: rest =>
      if c = ']' ∧ acc.isEmpty then some (.list [], rest)
      else
        match parseVal fuel (c :: rest) with
        | none => none
        | some (v, r1) =>
          match skipWs r1 with
          | ',' :: r2 => parseItems fuel r2 (acc ++ [v])
          | c2 :: r2 => if c2 = ']' then some (.list (acc ++ [v]), r2) else none
          | [] => none

end

/-- Embedding of Python `json.loads` on strings: parse a JSON document,
rejecting trailing non-whitespace.  The error string stands in for the
message carried by `json.JSONDecodeError`. -/
def jsonLoads (s : String) : Except String PyVal :=
  match parseVal (s.length + 2) s.data with
  | none => .error "Expecting value"
  | some (v, rest) => if (skipWs rest).isEmpty then .ok v else .error "Extra data"

def spaces (n : Nat) : String := String.mk (List.replicate n ' ')

def hexDigit (n : Nat) : Char :=
  if n < 10 then Char.ofNat (48 + n) else Char.ofNat (87 + n)

def hex4 (n : Nat) : String :=
  String.mk [hexDigit (n / 4096 % 16), hexDigit (n / 256 % 16), hexDigit (n / 16 % 16),
    hexDigit (n % 16)]

def escChar (c : Char) : String :=
  if c = '"' then "\\\""
  else if c = '\\' then "\\\\"
  else if c = '\n' then "\\n"
  else if c = '\t' then "\\t"
  else if c = '\r' then "\\r"
  else if c = Char.ofNat 8 then "\\b"
  else if c = Char.ofNat 12 then "\\f"
  else if c.toNat < 32 then "\\u" ++ hex4 c.toNat
  else if c.toNat < 127 then String.singleton c
  else if c.toNat < 65536 then "\\u" ++ hex4 c.toNat
  else
    "\\u" ++ hex4 (55296 + (c.toNat - 65536) / 1024) ++ "\\u" ++ hex4 (56320 + (c.toNat - 65536) % 1024)

def quoteStr (s : String) : String :=
  "\"" ++ String.join (s.data.map escChar) ++ "\""

def findPow10 : Nat → Nat → Nat → Option Nat
  | 0, _, _ => none
  | f + 1, d, k => if 10 ^ k % d = 0 then some k else findPow10 f d (k + 1)

def natPad (s : String) (k : Nat) : String :=
  String.mk (List.replicate (k - s.length) '0') ++ s

/-- Decimal rendering of a parsed JSON float, matching Python `repr` on the
finite decimal values that arise from `json.loads`. -/
def floatRepr (q : Rat) : String :=
  let sign := if q.num < 0 then "-" else ""
  let n := q.num.natAbs
  let d := q.den
  match findPow10 600 d 0 with
  | some k =>
    let scaled := n * 10 ^ k / d
    if k = 0 then sign ++ toString scaled ++ ".0"
    else sign ++ toString (scaled / 10 ^ k) ++ "." ++ natPad (toString (scaled % 10 ^ k)) k
  | none => sign ++ toString n ++ "/" ++ toString d

mutual

def dumpsV : Nat → PyVal → String
  | _, .null => "null"
  | _, .bool true => "true"
  | _, .bool false => "false"
  | _, .int n => toString n
  | _, .float q => floatRepr q
  | _, .str s => quoteStr s
  | ind, .list xs =>
    match xs with
    | [] => "[]"
    | _ :: _ =>
      "[\n" ++ dumpsItems (ind + 1) xs ++ "\n" ++ spaces (2 * ind) ++ "]"
  | ind, .dict fs =>
    match fs with
    | [] => String.mk [lbrace, rbrace]
    | _ :: _ =>
      String.singleton lbrace ++ "\n" ++ dumpsFields (ind + 1) fs ++ "\n" ++ spaces (2 * ind) ++
        String.singleton rbrace

def dumpsItems : Nat → List PyVal → String
  | _, [] => ""
  | ind, [x] => spaces (2 * ind) ++ dumpsV ind x
  | ind, x :: y :: rest =>
    spaces (2 * ind) ++ dumpsV ind x ++ ",\n" ++ dumpsItems ind (y :: rest)

def dumpsFields : Nat → List (String × PyVal) → String
  | _, [] => ""
  | ind, [(k, v)] => spaces (2 * ind) ++ quoteStr k ++ ": " ++ dumpsV ind v
  | ind, (k, v) :: p :: rest =>
    spaces (2 * ind) ++ quoteStr k ++ ": " ++ dumpsV ind v ++ ",\n" ++ dumpsFields ind (p :: rest)

end

/-- Embedding of Python `json.dumps(v, indent=2)`. -/
def dumps2 (v : PyVal) : String := dumpsV 0 v

structure Vendor where
  name : String
  address : String
  phone : String
  email : String
deriving Repr, DecidableEq

structure Customer where
  name : String
  address : String
  phone : String
  email : String
deriving Repr, DecidableEq

structure Invoice where
  vendor : Vendor
  customer : Customer
  invoiceNumber : String
  date : String
  totalAmount : Rat
  tax : Rat
  paymentTerms : Int
deriving Repr, DecidableEq

inductive PyErr where
  | keyError (k : String) : PyErr
  | valueError (msg : String) : PyErr
  | jsonDecodeError (msg : String) : PyErr
  | typeError (msg : String) : PyErr
  | validationError (locs : List String) : PyErr
deriving Repr, DecidableEq

def trimWs (s : String) : String := String.mk (skipWs (skipWs s.data.reverse).reverse)

/-- Pydantic lax conversion of a string to a float: optional sign, decimal
digits around an optional point (at least one digit), optional exponent. -/
def pydFloatOfString (s : String) : Option Rat :=
  let cs := (trimWs s).data
  let sn : Bool × List Char :=
    match cs with
    | '-' :: r => (true, r)
    | '+' :: r => (false, r)
    | _ => (false, cs)
  let ip := List.span Char.isDigit sn.2
  let fr : Option (List Char × List Char) :=
    match ip.2 with
    | '.' :: r =>
      let f := List.span Char.isDigit r
      some (f.1, f.2)
    | _ => some ([], ip.2)
  match fr with
  | none => none
  | some (fds, cs3) =>
    if ip.1 = [] ∧ fds = [] then none
    else
      let ex : Option (Int × List Char) :=
        match cs3 with
        | 'e' :: r => expPart r
        | 'E' :: r => expPart r
        | _ => some (0, cs3)
      match ex with
      | none => none
      | some (ev, cs4) =>
        if cs4 = [] then
          let mantissa : Nat := digitsToNat (ip.1 ++ fds)
          let sgn : Int := if sn.1 then -1 else 1
          let e : Int := ev - (fds.length : Int)
          some (if 0 ≤ e then mkRat (sgn * ((mantissa * 10 ^ e.toNat : Nat) : Int)) 1
            else mkRat (sgn * (mantissa : Int)) (10 ^ (-e).toNat))
        else none

def pydIntOfString (s : String) : Option Int :=
  let cs := (trimWs s).data
  let sn : Bool × List Char :=
    match cs with
    | '-' :: r => (true, r)
    | '+' :: r => (false, r)
    | _ => (false, cs)
  let ds := List.span Char.isDigit sn.2
  if ds.1 = [] ∨ ds.2 ≠ [] then none
  else some (if sn.1 then -(digitsToNat ds.1 : Int) else (digitsToNat ds.1 : Int))

/-- Pydantic lax validation for a `str` field: only strings are accepted. -/
def pydStr : PyVal → Option String
  | .str s => some s
  | _ => none

/-- Pydantic lax validation for a `float` field: floats, ints, and numeric
strings are accepted (strings are coerced); booleans are rejected. -/
def pydFloat : PyVal → Option Rat
  | .float q => some q
  | .int n => some (n : Rat)
  | .str s => pydFloatOfString s
  | _ => none

/-- Pydantic lax validation for an `int` field: ints, integral floats, and
integer strings are accepted; booleans are rejected. -/
def pydInt : PyVal → Option Int
  | .int n => some n
  | .float q => if q.den = 1 then some q.num else none
  | .str s => pydIntOfString s
  | _ => none

/-- Error-accumulating conjunction for field validation, mirroring how
pydantic collects every failing field location in one `ValidationError`. -/
def vand : Except (List String) α → Except (List String) β → Except (List String) (α × β)
  | .ok a, .ok b => .ok (a, b)
  | .error e, .ok _ => .error e
  | .ok _, .error e => .error e
  | .error e1, .error e2 => .error (e1 ++ e2)

def vfield (fs : List (String × PyVal)) (key loc : String) (coe : PyVal → Option α) :
    Except (List String) α :=
  match dictGet fs key with
  | none => .error [loc]
  | some v =>
    match coe v with
    | some a => .ok a
    | none => .error [loc]

def vVendor (base : String) (v : PyVal) : Except (List String) Vendor :=
  match v with
  | .dict fs =>
    match vand (vand (vfield fs "name" (base ++ ".name") pydStr)
          (vfield fs "address" (base ++ ".address") pydStr))
        (vand (vfield fs "phone" (base ++ ".phone") pydStr)
          (vfield fs "email" (base ++ ".email") pydStr)) with
    | .ok ((n, a), (p, e)) => .ok { name := n, address := a, phone := p, email := e }
    | .error errs => .error errs
  | _ => .error [base]

def vCustomer (base : String) (v : PyVal) : Except (List String) Customer :=
  match v with
  | .dict fs =>
    match vand (vand (vfield fs "name" (base ++ ".name") pydStr)
          (vfield fs "address" (base ++ ".address") pydStr))
        (vand (vfield fs "phone" (base ++ ".phone") pydStr)
          (vfield fs "email" (base ++ ".email") pydStr)) with
    | .ok ((n, a), (p, e)) => .ok { name := n, address := a, phone := p, email := e }
    | .error errs => .error errs
  | _ => .error [base]

/-- Embedding of `Invoice(**kwargs)`: every declared field is validated in
declaration order, extra keys are ignored, and all failing locations are
reported together as one `ValidationError` (the `SchemaViolation` of the
spec). -/
def invoiceFromKwargs (fs : List (String × PyVal)) : Except PyErr Invoice :=
  let rv : Except (List String) Vendor :=
    match dictGet fs "vendor" with
    | none => .error ["vendor"]
    | some v => vVendor "vendor" v
  let rc : Except (List String) Customer :=
    match dictGet fs "customer" with
    | none => .error ["customer"]
    | some c => vCustomer "customer" c
  match vand (vand (vand rv rc)
        (vand (vfield fs "invoiceNumber" "invoiceNumber" pydStr)
          (vfield fs "date" "date" pydStr)))
      (vand (vand (vfield fs "totalAmount" "totalAmount" pydFloat)
          (vfield fs "tax" "tax" pydFloat))
        (vfield fs "paymentTerms" "paymentTerms" pydInt)) with
  | .ok (((v, c), (n, d)), ((t, x), p)) =>
    .ok { vendor := v, customer := c, invoiceNumber := n, date := d, totalAmount := t,
          tax := x, paymentTerms := p }
  | .error errs => .error (.validationError errs)

/-- Embedding of the shape-reconciliation tail of `extract_invoice_details`
(the `if 'invoice' in invoice_data` branch and the `Invoice(**...)` calls).
Lookup and unpacking failures mirror CPython evaluation order: the value
under `invoice` is unpacked first, then `vendor` and `customer` are
indexed, raising `KeyError` on the first one that is absent. -/
def normalizeResponse (invoice_data : PyVal) : Except PyErr Invoice :=
  match invoice_data with
  | .dict fields =>
    if (dictGet fields "invoice").isSome then
      match dictGet fields "invoice" with
      | some (.dict inner) =>
        match dictGet fields "vendor" with
        | none => .error (.keyError "vendor")
        | some v =>
          match dictGet fields "customer" with
          | none => .error (.keyError "customer")
          | some c => invoiceFromKwargs (dictSet (dictSet inner "vendor" v) "customer" c)
      | _ => .error (.typeError "object is not a mapping")
    else invoiceFromKwargs fields
  | _ => .error (.typeError "argument is not a dict")

structure Message where
  role : String
  content : String
deriving Repr, DecidableEq

structure Request where
  model : String
  messages : List Message
  response_format : PyVal

/-- The `expected_schema` dict of `open.py`, transcribed verbatim. -/
def expected_schema : PyVal :=
  .dict [("type", .str "json_schema"),
    ("json_schema", .dict [("name", .str "invoice_details"), ("strict", .str "true"),
      ("schema", .dict [("type", .str "object"),
        ("properties", .dict [
          ("vendor", .dict [("type", .str "object"),
            ("properties", .dict [
              ("name", .dict [("type", .str "string")]),
              ("address", .dict [("type", .str "string")]),
              ("phone", .dict [("type", .str "string")]),
              ("email", .dict [("type", .str "string")])]),
            ("required", .list [.str "name", .str "address", .str "phone", .str "email"])]),
          ("customer", .dict [("type", .str "object"),
            ("properties", .dict [
              ("name", .dict [("type", .str "string")]),
              ("address", .dict [("type", .str "string")]),
              ("phone", .dict [("type", .str "string")]),
              ("email", .dict [("type", .str "string")])]),
            ("required", .list [.str "name", .str "address", .str "phone", .str "email"])]),
          ("invoiceNumber", .dict [("type", .str "string")]),
          ("date", .dict [("type", .str "string")]),
          ("totalAmount", .dict [("type", .str "number")]),
          ("tax", .dict [("type", .str "number")]),
          ("paymentTerms", .dict [("type", .str "integer")])]),
        ("required", .list [.str "vendor", .str "customer", .str "invoiceNumber",
          .str "date", .str "totalAmount", .str "tax", .str "paymentTerms"])])])]

/-- The request body built by `get_ai_response` (lines 143-152): only
`model`, the two messages, and `response_format` are sent. -/
def get_ai_request (model role prompt : String) (schema : PyVal) : Request :=
  { model := model,
    messages := [{ role := "system", content := role }, { role := "user", content := prompt }],
    response_format := schema }

/-- Embedding of `get_ai_response`.  The external serving endpoint is a
constructor-injected function from the request to the first choice's message
content.  The returned value is `json.dumps(results, indent=2)` when the
parsed content is a dict and the parsed value itself otherwise; `temp` and
`ctx` are parameters of the Python signature that the body never reads. -/
def get_ai_response (endpoint : Request → String) (model role prompt : String) (schema : PyVal)
    (temp : Rat) (ctx : Int) : Except PyErr PyVal :=
  let content := endpoint (get_ai_request model role prompt schema)
  match jsonLoads content with
  | .error e => .error (.jsonDecodeError e)
  | .ok results => .ok (if isDict results then .str (dumps2 results) else results)

/-- The f-string prompt template of `extract_invoice_details`. -/
def buildPrompt (pdf_content : String) : String :=
  "\n        Extract all relevant data from the below invoice content (which was extracted from a PDF document).\n        Make sure to capture data like vendor name, date, amount, tax etc.\n        <invoice-content>\n        " ++
    pdf_content ++
    "\n        </invoice-content>\n        \n        Return your response as a JSON object without any extra text or explanation.\n    "

def extractorRole : String :=
  "You are an expert data extractor who excels at analyzing invoices."

/-- Embedding of `extract_invoice_details`: call the model, raise
`ValueError` on a falsy response, re-parse the response with
`json.JSONDecodeError` wrapped into `ValueError`, then reconcile the
nesting shape and validate (`normalizeResponse`). -/
def extract_invoice_details (endpoint : Request → String) (pdf_content : String) :
    Except PyErr Invoice :=
  let prompt := buildPrompt pdf_content
  match get_ai_response endpoint "google/gemma-3-12b" extractorRole prompt expected_schema
      (1 / 2) 20000 with
  | .error e => .error e
  | .ok response =>
    if pyTruthy response = false then
      .error (.valueError "Failed to extract invoice details from the PDF content.")
    else
      match response with
      | .str s =>
        match jsonLoads s with
        | .error e => .error (.valueError ("Invalid JSON response: " ++ e))
        | .ok invoice_data => normalizeResponse invoice_data
      | _ => .error (.typeError "the JSON object must be str, bytes or bytearray")

/-- Embedding of `invoice.model_dump()`: the validated record rendered back
as a Python dict in field declaration order. -/
def model_dump (inv : Invoice) : List (String × PyVal) :=
  [("vendor", .dict [("name", .str inv.vendor.name), ("address", .str inv.vendor.address),
      ("phone", .str inv.vendor.phone), ("email", .str inv.vendor.email)]),
   ("customer", .dict [("name", .str inv.customer.name), ("address", .str inv.customer.address),
      ("phone", .str inv.customer.phone), ("email", .str inv.customer.email)]),
   ("invoiceNumber", .str inv.invoiceNumber),
   ("date", .str inv.date),
   ("totalAmount", .float inv.totalAmount),
   ("tax", .float inv.tax),
   ("paymentTerms", .int inv.paymentTerms)]

structure InvoiceRow where
  vendor_name : Option PyVal
  vendor_address : Option PyVal
  vendor_phone : Option PyVal
  vendor_email : Option PyVal
  customer_name : Option PyVal
  customer_address : Option PyVal
  customer_phone : Option PyVal
  customer_email : Option PyVal
  invoice_number : Option PyVal
  date : Option PyVal
  total_amount : Option PyVal
  tax : Option PyVal
  payment_terms : Option PyVal

/-- `invoice_data.get(k, \x7b\x7d).get(sub)` from `insert_invoice_data`.
The non-mapping case is unreachable because the argument is always a model
dump, whose `vendor` and `customer` entries are dicts. -/
def getNested (fs : List (String × PyVal)) (k sub : String) : Option PyVal :=
  match dictGet fs k with
  | some (.dict inner) => dictGet inner sub
  | _ => none

/-- The column tuple bound by the `INSERT` statement of
`insert_invoice_data`: each `.get` yields the value or SQL `NULL`. -/
def rowFor (invoice_data : List (String × PyVal)) : InvoiceRow :=
  { vendor_name := getNested invoice_data "vendor" "name",
    vendor_address := getNested invoice_data "vendor" "address",
    vendor_phone := getNested invoice_data "vendor" "phone",
    vendor_email := getNested invoice_data "vendor" "email",
    customer_name := getNested invoice_data "customer" "name",
    customer_address := getNested invoice_data "customer" "address",
    customer_phone := getNested invoice_data "customer" "phone",
    customer_email := getNested invoice_data "customer" "email",
    invoice_number := dictGet invoice_data "invoiceNumber",
    date := dictGet invoice_data "date",
    total_amount := dictGet invoice_data "totalAmount",
    tax := dictGet invoice_data "tax",
    payment_terms := dictGet invoice_data "paymentTerms" }

/-- Embedding of `insert_invoice_data`: the table is a row list and the
insert appends exactly one row. -/
def insert_invoice_data (db : List InvoiceRow) (invoice_data : List (String × PyVal)) :
    List InvoiceRow :=
  db ++ [rowFor invoice_data]

/-- Rendering of `str(e)` for the caught exception, used in the batch
runner's per-document error report. -/
def errStr : PyErr → String
  | .keyError k => "'" ++ k ++ "'"
  | .valueError m => m
  | .jsonDecodeError m => m
  | .typeError m => m
  | .validationError locs => "validation error for Invoice: " ++ String.intercalate ", " locs

inductive DocOutcome where
  | ok (file : String) (inv : Invoice) : DocOutcome
  | err (file : String) (msg : String) : DocOutcome
deriving Repr, DecidableEq

/-- One document's trip through the `try` block of `main`: read the PDF
text (external Content Source, injected), then extract. -/
def processOne (readPdf : String → Except PyErr String) (endpoint : Request → String)
    (f : String) : Except PyErr Invoice :=
  match readPdf f with
  | .error e => .error e
  | .ok content => extract_invoice_details endpoint content

def outcomeOf (readPdf : String → Except PyErr String) (endpoint : Request → String)
    (f : String) : DocOutcome :=
  match processOne readPdf endpoint f with
  | .ok inv => .ok f inv
  | .error e => .err f ("An error occurred while processing " ++ f ++ ": " ++ errStr e)

def successRow (readPdf : String → Except PyErr String) (endpoint : Request → String)
    (f : String) : Option InvoiceRow :=
  match processOne readPdf endpoint f with
  | .ok inv => some (rowFor (model_dump inv))
  | .error _ => none

/-- Embedding of the per-document loop of `main` (lines 223-233): each
document is processed inside a `try`, a success inserts one row, and any
exception is caught and reported with the document's path. -/
def mainLoop (readPdf : String → Except PyErr String) (endpoint : Request → String) :
    List String → List InvoiceRow → List InvoiceRow × List DocOutcome
  | [], db => (db, [])
  | f :: rest, db =>
    match processOne readPdf endpoint f with
    | .ok invoice =>
      let step := mainLoop readPdf endpoint rest (insert_invoice_data db (model_dump invoice))
      (step.1, DocOutcome.ok f invoice :: step.2)
    | .error e =>
      let step := mainLoop readPdf endpoint rest db
      (step.1,
        DocOutcome.err f ("An error occurred while processing " ++ f ++ ": " ++ errStr e) ::
          step.2)

theorem dictGet_dictSet_of_ne (l : List (String × PyVal)) (k k' : String) (v : PyVal)
    (h : k' ≠ k) : dictGet (dictSet l k' v) k = dictGet l k := by
  induction l with
  | nil => simp [dictSet, dictGet, h]
  | cons p rest ih =>
    obtain ⟨k0, v0⟩ := p
    by_cases hk : k0 = k'
    · subst hk
      simp only [dictSet, if_pos rfl, dictGet]
      have hk2 : ¬k0 = k := h
      simp [hk2]
    · simp only [dictSet, if_neg hk, dictGet]
      by_cases hk2 : k0 = k
      · simp [hk2]
      · simp [hk2, ih]

deriving instance DecidableEq for Except

def isValueError : Except PyErr Invoice → Bool
  | .error (.valueError _) => true
  | _ => false

def isSchemaViolation : Except PyErr Invoice → Bool
  | .error (.validationError _) => true
  | _ => false

def isEmptyModelResponse : Except PyErr Invoice → Bool
  | .error (.valueError m) => m = "Failed to extract invoice details from the PDF content."
  | _ => false

/-- The flat field list of a record, with the `totalAmount` slot replaced by
an arbitrary value. -/
def flatFieldsWithTotal (inv : Invoice) (ta : PyVal) : List (String × PyVal) :=
  [("vendor", .dict [("name", .str inv.vendor.name), ("address", .str inv.vendor.address),
      ("phone", .str inv.vendor.phone), ("email", .str inv.vendor.email)]),
   ("customer", .dict [("name", .str inv.customer.name), ("address", .str inv.customer.address),
      ("phone", .str inv.customer.phone), ("email", .str inv.customer.email)]),
   ("invoiceNumber", .str inv.invoiceNumber),
   ("date", .str inv.date),
   ("totalAmount", ta),
   ("tax", .float inv.tax),
   ("paymentTerms", .int inv.paymentTerms)]

def sampleInvoice : Invoice :=
  { vendor := { name := "Acme", address := "1 Rd", phone := "555", email := "a@x.com" },
    customer := { name := "Bob", address := "2 Rd", phone := "556", email := "b@x.com" },
    invoiceNumber := "INV-1", date := "2024-01-01", totalAmount := 100, tax := 8,
    paymentTerms := 30 }

def c1input : PyVal := .dict (flatFieldsWithTotal sampleInvoice (.str "100.0"))

/-- C1 counterexample: a record whose `totalAmount` is the numeric string
"100.0" is accepted by the normalizer, and the string is coerced to the
number 100 — it is not rejected with a `SchemaViolation`. -/
theorem C1_counterexample :
    normalizeResponse c1input = .ok sampleInvoice ∧
      dictGet (flatFieldsWithTotal sampleInvoice (.str "100.0")) "totalAmount" =
        some (.str "100.0") ∧
      sampleInvoice.totalAmount = 100 ∧
      isSchemaViolation (normalizeResponse c1input) = false := by
  refine ⟨by decide, rfl, rfl, rfl⟩

/-- C1 (amended): for any record whose required numeric field `totalAmount`
holds a numeric string, pydantic's lax validation coerces the string into
the number it denotes and accepts the record; no `SchemaViolation` is
raised for it. -/
theorem C1_theorem (inv : Invoice) (s : String) (q : Rat)
    (h : pydFloatOfString s = some q) :
    normalizeResponse (.dict (flatFieldsWithTotal inv (.str s))) =
      .ok { inv with totalAmount := q } := by
  simp [normalizeResponse, flatFieldsWithTotal, invoiceFromKwargs, vfield, dictGet,
    vVendor, vCustomer, pydStr, pydFloat, pydInt, vand, h]

/-- C1 witness: the coercion theorem applied at the string "100.0". -/
theorem C1_witness :
    pydFloatOfString "100.0" = some 100 ∧
      normalizeResponse (.dict (flatFieldsWithTotal sampleInvoice (.str "100.0"))) =
        .ok { sampleInvoice with totalAmount := 100 } :=
  ⟨by decide, C1_theorem sampleInvoice "100.0" 100 (by decide)⟩

/-- The exact flat input object named by the claim: no vendor/customer
`phone` and no `paymentTerms`. -/
def c2claimInput : PyVal :=
  .dict [("invoiceNumber", .str "INV-1"), ("date", .str "2024-01-01"),
    ("totalAmount", .float 100), ("tax", .float 8),
    ("vendor", .dict [("name", .str "Acme"), ("address", .str "1 Rd"),
      ("email", .str "a@x.com")]),
    ("customer", .dict [("name", .str "Bob"), ("address", .str "2 Rd"),
      ("email", .str "b@x.com")])]

/-- C2 counterexample: the claimed input does not validate — `phone` is a
required field of both nested models and `paymentTerms` is a required field
of the invoice, so validation fails naming all three. -/
theorem C2_counterexample :
    normalizeResponse c2claimInput =
      .error (.validationError ["vendor.phone", "customer.phone", "paymentTerms"]) := by
  decide

/-- The claimed input extended with the missing required fields. -/
def c2text : String :=
  "\x7b\"invoiceNumber\":\"INV-1\",\"date\":\"2024-01-01\",\"totalAmount\":100.0,\"tax\":8.0,\"vendor\":\x7b\"name\":\"Acme\",\"address\":\"1 Rd\",\"email\":\"a@x.com\",\"phone\":\"555\"\x7d,\"customer\":\x7b\"name\":\"Bob\",\"address\":\"2 Rd\",\"email\":\"b@x.com\",\"phone\":\"556\"\x7d,\"paymentTerms\":30\x7d"

set_option maxRecDepth 16000 in
/-- C2 (amended): once the input also carries the required vendor/customer
`phone` fields and `paymentTerms`, the full extraction pipeline succeeds on
it and persistence appends exactly one row with `vendor_name` 'Acme' and
`total_amount` 100.0. -/
theorem C2_theorem :
    extract_invoice_details (fun _ => c2text) "doc.pdf" = .ok sampleInvoice ∧
      insert_invoice_data [] (model_dump sampleInvoice) = [rowFor (model_dump sampleInvoice)] ∧
      (insert_invoice_data [] (model_dump sampleInvoice)).length = 1 ∧
      (rowFor (model_dump sampleInvoice)).vendor_name = some (.str "Acme") ∧
      (rowFor (model_dump sampleInvoice)).total_amount = some (.float 100) := by
  refine ⟨by decide, rfl, rfl, rfl, rfl⟩

/-- C3 counterexample: with the empty string as the model response content,
the pipeline fails with the json parse error raised by `json.loads` inside
`get_ai_response` — a parse attempt is made, and the `EmptyModelResponse`
`ValueError` is never reached. -/
theorem C3_counterexample :
    extract_invoice_details (fun _ => "") "doc.pdf" = .error (.jsonDecodeError "Expecting value") ∧
      isEmptyModelResponse (extract_invoice_details (fun _ => "") "doc.pdf") = false := by
  refine ⟨by decide, by decide⟩

/-- C3 (amended): an empty response content fails with the parse error from
`json.loads` inside the model invoker, before the emptiness check; the
`EmptyModelResponse` condition fires only when the content parses to a
falsy JSON value, such as `null`. -/
theorem C3_theorem :
    extract_invoice_details (fun _ => "") "doc.pdf" =
        .error (.jsonDecodeError "Expecting value") ∧
      extract_invoice_details (fun _ => "null") "doc.pdf" =
        .error (.valueError "Failed to extract invoice details from the PDF content.") := by
  refine ⟨by decide, by decide⟩

/-- C4: for any record expressed in wrapped form — scalar fields nested
under `invoice`, with `vendor` and `customer` top-level — the normalizer
returns exactly the result it returns for the equivalent flat form, namely
the scalar fields with `vendor` and `customer` set, provided the scalar
object does not itself carry an `invoice` key. -/
theorem C4_theorem (scalars : List (String × PyVal)) (v c : PyVal)
    (h : dictGet scalars "invoice" = none) :
    normalizeResponse (.dict [("invoice", .dict scalars), ("vendor", v), ("customer", c)]) =
      normalizeResponse (.dict (dictSet (dictSet scalars "vendor" v) "customer" c)) := by
  have h1 : dictGet (dictSet (dictSet scalars "vendor" v) "customer" c) "invoice" = none := by
    rw [dictGet_dictSet_of_ne _ "invoice" "customer" c (by decide),
      dictGet_dictSet_of_ne _ "invoice" "vendor" v (by decide), h]
  have hl : normalizeResponse
      (.dict [("invoice", .dict scalars), ("vendor", v), ("customer", c)]) =
      invoiceFromKwargs (dictSet (dictSet scalars "vendor" v) "customer" c) := rfl
  have hr : normalizeResponse (.dict (dictSet (dictSet scalars "vendor" v) "customer" c)) =
      invoiceFromKwargs (dictSet (dictSet scalars "vendor" v) "customer" c) := by
    simp [normalizeResponse, h1]
  rw [hl, hr]

def c4scalars : List (String × PyVal) :=
  [("invoiceNumber", .str "INV-1"), ("date", .str "2024-01-01"), ("totalAmount", .float 100),
   ("tax", .float 8), ("paymentTerms", .int 30)]

def c4vendor : PyVal :=
  .dict [("name", .str "Acme"), ("address", .str "1 Rd"), ("phone", .str "555"),
    ("email", .str "a@x.com")]

def c4customer : PyVal :=
  .dict [("name", .str "Bob"), ("address", .str "2 Rd"), ("phone", .str "556"),
    ("email", .str "b@x.com")]

/-- C4 witness: merge equivalence applied to a concrete wrapped record. -/
theorem C4_witness :
    dictGet c4scalars "invoice" = none ∧
      normalizeResponse
          (.dict [("invoice", .dict c4scalars), ("vendor", c4vendor), ("customer", c4customer)]) =
        normalizeResponse (.dict (dictSet (dictSet c4scalars "vendor" c4vendor)
          "customer" c4customer)) :=
  ⟨rfl, C4_theorem c4scalars c4vendor c4customer rfl⟩

/-- C5 counterexample: raw model text that is not valid JSON makes the very
first `json.loads` — the one inside `get_ai_response` — raise, and that
parse error propagates unclassified; the extraction does not produce the
`MalformedResponse` `ValueError`. -/
theorem C5_counterexample :
    extract_invoice_details (fun _ => "not json") "doc.pdf" =
        .error (.jsonDecodeError "Expecting value") ∧
      isValueError (extract_invoice_details (fun _ => "not json") "doc.pdf") = false := by
  refine ⟨by decide, rfl⟩

/-- C5 (amended): unparseable raw model content fails with the bare parse
error raised inside the model invoker; the `MalformedResponse`
classification (`ValueError` wrapping the parse error) occurs only when the
content is a JSON string literal whose own contents fail to parse. -/
theorem C5_theorem :
    extract_invoice_details (fun _ => "not json") "doc.pdf" =
        .error (.jsonDecodeError "Expecting value") ∧
      extract_invoice_details (fun _ => "\"not json\"") "doc.pdf" =
        .error (.valueError "Invalid JSON response: Expecting value") := by
  refine ⟨by decide, by decide⟩

/-- C6: any valid flat record — every schema field present with its
declared primitive type — is returned by the normalizer with every field
equal to the input value, with no coercion and no loss. -/
theorem C6_theorem (inv : Invoice) : normalizeResponse (.dict (model_dump inv)) = .ok inv := rfl

/-- C7: the batch loop yields exactly one outcome per input document, each
document's outcome (success, or a failure report carrying that document's
path) depends only on that document, and the rows persisted are the
initial table plus one row per successful document — so no per-document
failure aborts the batch or disturbs the other documents. -/
theorem C7_theorem (readPdf : String → Except PyErr String) (endpoint : Request → String)
    (files : List String) (db : List InvoiceRow) :
    (mainLoop readPdf endpoint files db).2 = files.map (outcomeOf readPdf endpoint) ∧
      (mainLoop readPdf endpoint files db).1 =
        db ++ files.filterMap (successRow readPdf endpoint) := by
  induction files generalizing db with
  | nil => simp [mainLoop]
  | cons f rest ih =>
    cases h : processOne readPdf endpoint f with
    | ok inv =>
      have hrec := ih (insert_invoice_data db (model_dump inv))
      simp only [insert_invoice_data] at hrec
      simp [mainLoop, h, outcomeOf, successRow, insert_invoice_data, hrec.1, hrec.2,
        List.append_assoc]
    | error e =>
      have hrec := ih db
      simp [mainLoop, h, outcomeOf, successRow, hrec.1, hrec.2]

def c8content : String := "\x7b\"a\":1\x7d"

/-- C8 counterexample: for the content `\x7b"a":1\x7d` the invoker returns
the re-serialized, 2-space-indented text, which differs from the raw
response body. -/
theorem C8_counterexample :
    get_ai_response (fun _ => c8content) "m" "r" "p" PyVal.null 0 0 =
        .ok (.str "\x7b\n  \"a\": 1\n\x7d") ∧
      "\x7b\n  \"a\": 1\n\x7d" ≠ c8content := by
  refine ⟨rfl, by decide⟩

/-- C8 (amended): whenever the first choice's message content parses to a
JSON object, `get_ai_response` returns that object re-serialized with
2-space indentation — not the raw text unchanged. -/
theorem C8_theorem (endpoint : Request → String) (model role prompt : String) (schema : PyVal)
    (temp : Rat) (ctx : Int) (fields : List (String × PyVal))
    (h : jsonLoads (endpoint (get_ai_request model role prompt schema)) = .ok (.dict fields)) :
    get_ai_response endpoint model role prompt schema temp ctx =
      .ok (.str (dumps2 (.dict fields))) := by
  simp only [get_ai_response, h]
  rfl

/-- C8 witness: the amended statement applied to the concrete content. -/
theorem C8_witness :
    jsonLoads ((fun _ => c8content) (get_ai_request "m" "r" "p" PyVal.null)) =
        .ok (.dict [("a", .int 1)]) ∧
      get_ai_response (fun _ => c8content) "m" "r" "p" PyVal.null 0 0 =
        .ok (.str (dumps2 (.dict [("a", .int 1)]))) :=
  ⟨rfl, C8_theorem (fun _ => c8content) "m" "r" "p" PyVal.null 0 0 [("a", .int 1)] rfl⟩

/-- C9: the value returned by `get_ai_response` does not depend on its
`temp` and `ctx` arguments — the body never reads them, so two calls that
differ only in those arguments build the same request and return the same
result. -/
theorem C9_theorem (endpoint : Request → String) (model role prompt : String) (schema : PyVal)
    (temp1 temp2 : Rat) (ctx1 ctx2 : Int) :
    get_ai_response endpoint model role prompt schema temp1 ctx1 =
      get_ai_response endpoint model role prompt schema temp2 ctx2 := rfl

/-- C10: a parsed response object with an `invoice` key (holding an object,
per the wrapped shape) but no top-level `vendor` or `customer` key makes
the merge step fail with a `KeyError` naming the first missing key — an
unclassified error, not a `SchemaViolation`. -/
theorem C10_theorem (fields inner : List (String × PyVal))
    (h1 : dictGet fields "invoice" = some (.dict inner))
    (h2 : dictGet fields "vendor" = none ∨ dictGet fields "customer" = none) :
    (normalizeResponse (.dict fields) = .error (.keyError "vendor") ∨
      normalizeResponse (.dict fields) = .error (.keyError "customer")) ∧
      isSchemaViolation (normalizeResponse (.dict fields)) = false := by
  have hmain : normalizeResponse (.dict fields) = .error (.keyError "vendor") ∨
      normalizeResponse (.dict fields) = .error (.keyError "customer") := by
    rcases h2 with h2 | h2
    · left
      simp [normalizeResponse, h1, h2]
    · cases hv : dictGet fields "vendor" with
      | none =>
        left
        simp [normalizeResponse, h1, hv]
      | some v =>
        right
        simp [normalizeResponse, h1, hv, h2]
  refine ⟨hmain, ?_⟩
  rcases hmain with h | h <;> rw [h] <;> rfl

/-- C10 witness: the theorem applied at a wrapped object with no `vendor`
key. -/
theorem C10_witness :
    (normalizeResponse (.dict [("invoice", .dict [])]) = .error (.keyError "vendor") ∨
      normalizeResponse (.dict [("invoice", .dict [])]) = .error (.keyError "customer")) ∧
      isSchemaViolation (normalizeResponse (.dict [("invoice", .dict [])])) = false :=
  C10_theorem [("invoice", .dict [])] [] rfl (Or.inl rfl)

end OpenPy
